import Mathlib

/-!
A verification development for the libtwitch repository (Go).

The definitions below are a shallow embedding of the source files
client.go and webhooks.go: pure Go functions become Lean functions,
stateful code becomes explicit state passing, HTTP transport and the
JSON codec become explicit oracles passed as arguments, and machine
integers become Nat or Int.  Line references point into the source
files of the repository.
-/

set_option autoImplicit false

namespace Libtwitch

/-! ## JSON values (the fragment used by the token response) -/

/-- A JSON value of the shapes the token endpoint response uses:
strings and integer numbers. -/
inductive JsonVal where
  | str (s : String)
  | num (n : Int)
deriving DecidableEq

/-- A decoded JSON object: an ordered list of key/value pairs. -/
abbrev JsonObj := List (String × JsonVal)

/-! ## AccessToken (client.go lines 26-33)

The Go struct is

  AccessToken  string (json key access_token)
  RefreshToken string (json key refresh_token)
  ExpiresIn    int    (json key refresh_token)   -- note: duplicated key, client.go line 29
  Scope        string (json key scope)
  ExpiresAt    time.Time

Times are modelled as Int (seconds). -/

structure AccessToken where
  accessToken : String
  refreshToken : String
  expiresIn : Int
  scope : String
  expiresAt : Int
deriving DecidableEq

/-- The json key declared for each field of the Go AccessToken struct,
transcribed from client.go lines 26-31.  The key refresh_token appears
twice: once on RefreshToken and once on ExpiresIn (line 29). -/
def accessTokenTags : List (String × String) :=
  [("AccessToken", "access_token"),
   ("RefreshToken", "refresh_token"),
   ("ExpiresIn", "refresh_token"),
   ("Scope", "scope")]

/-- Which struct field a JSON object key binds to, following the Go
encoding/json rule for decoding: a key binds the field whose declared
json key equals it, and when several fields at the same depth declare
the same json key, none of them is selected and the key is ignored
without error.  A field with a declared key is matched only through
that key, never through its field name. -/
def goFieldForKey (tags : List (String × String)) (key : String) : Option String :=
  match tags.filter (fun p => p.2 == key) with
  | [p] => some p.1
  | _ => none

/-- Assign one decoded JSON value to one field of the token, failing on a
type mismatch as encoding/json does. -/
def setTokenField (t : AccessToken) (field : String) (v : JsonVal) : Except String AccessToken :=
  if field = "AccessToken" then
    match v with
    | .str s => .ok { t with accessToken := s }
    | _ => .error "cannot unmarshal value into field AccessToken"
  else if field = "RefreshToken" then
    match v with
    | .str s => .ok { t with refreshToken := s }
    | _ => .error "cannot unmarshal value into field RefreshToken"
  else if field = "ExpiresIn" then
    match v with
    | .num n => .ok { t with expiresIn := n }
    | _ => .error "cannot unmarshal value into field ExpiresIn"
  else if field = "Scope" then
    match v with
    | .str s => .ok { t with scope := s }
    | _ => .error "cannot unmarshal value into field Scope"
  else .ok t

/-- Go json.Unmarshal of the token response body into the AccessToken
struct (client.go lines 175-179): start from the zero value and assign
each object key that resolves to a unique field; keys that resolve to
no field, or to more than one field with the same declared json key,
are ignored. -/
def unmarshalAccessToken (j : JsonObj) : Except String AccessToken :=
  j.foldlM
    (fun t kv =>
      match goFieldForKey accessTokenTags kv.1 with
      | some f => setTokenField t f kv.2
      | none => .ok t)
    ⟨"", "", 0, "", 0⟩

/-! ## authenticate (client.go lines 131-186) -/

/-- The header authenticate attaches to the outbound request: either the
Client-ID header (no secret configured, client.go line 141) or the
Authorization Bearer header (lines 150 and 184). -/
inductive AuthHeader where
  | clientID (id : String)
  | bearer (token : String)
deriving DecidableEq

/-- The cache-miss tail of authenticate (client.go lines 154-185): issue
the token request (modelled by the oracle fetch, returning a transport
error or a status code with a decoded JSON body), require status 200,
unmarshal the body, set ExpiresAt to now plus the decoded ExpiresIn
seconds (line 181), cache the token and attach the bearer header. -/
def authFetchToken (now : Int) (fetch : Except String (Nat × JsonObj)) :
    Except String (AuthHeader × Option AccessToken) :=
  match fetch with
  | .error e => .error e
  | .ok (status, body) =>
    if status ≠ 200 then .error ("authentication failed: HTTP " ++ toString status)
    else
      match unmarshalAccessToken body with
      | .error e => .error e
      | .ok t0 =>
        let t : AccessToken := { t0 with expiresAt := now + t0.expiresIn }
        .ok (.bearer t.accessToken, some t)

/-- authenticate (client.go lines 131-186), as a function of the
configured credentials, the cached token, the current time and the
token-request oracle.  It returns the header attached to the request
together with the new cached-token state.  The source reads the clock
twice (lines 148 and 181); both reads are modelled by the same now.
The cache test on line 148 is transcribed verbatim: the cached token is
reused when c.token is not nil and c.token.ExpiresAt.Before(time.Now()),
that is when expiresAt is strictly less than now. -/
def authenticate (clientID clientSecret : String) (cached : Option AccessToken) (now : Int)
    (fetch : Except String (Nat × JsonObj)) : Except String (AuthHeader × Option AccessToken) :=
  if clientID = "" then .error "client id is required"
  else if clientSecret = "" then .ok (.clientID clientID, cached)
  else
    match cached with
    | some t =>
      if t.expiresAt < now then .ok (.bearer t.accessToken, some t)
      else authFetchToken now fetch
    | none => authFetchToken now fetch

/-! ## URL helpers (webhooks.go lines 17-43)

queryEscape models the Go function url.QueryEscape on ASCII strings:
alphanumerics and the characters minus, underscore, dot and tilde are
kept, a space becomes a plus sign, every other character becomes a
percent sign followed by two uppercase hex digits of its code.
url.Values.Encode sorts the keys and joins key=value pairs with an
ampersand; the call sites below have concrete keys, so the sorted
order is written out directly. -/

/-- Uppercase hexadecimal digit of a value below 16. -/
def hexDigitUpper (n : Nat) : Char :=
  if n < 10 then Char.ofNat (48 + n) else Char.ofNat (55 + n)

/-- Escape one character as url.QueryEscape does. -/
def escapeChar (c : Char) : String :=
  if c.isAlphanum ∨ c = '-' ∨ c = '_' ∨ c = '.' ∨ c = '~' then String.singleton c
  else if c = ' ' then "+"
  else "%" ++ String.singleton (hexDigitUpper (c.toNat / 16))
          ++ String.singleton (hexDigitUpper (c.toNat % 16))

/-- url.QueryEscape on an ASCII string. -/
def queryEscape (s : String) : String :=
  String.join (s.data.map escapeChar)

/-- makeTopicKey (webhooks.go lines 17-19): the registry key is the
topic and the user id joined by a slash. -/
def makeTopicKey (topic userID : String) : String :=
  topic ++ "/" ++ userID

/-- makeTopicURL (webhooks.go lines 21-35): the topic URL sent to the
hub as hub.topic.  For streams the query is user_id=..., for follows
the sorted query is first=1 followed by to_id=...; any other topic is
the error invalid topic. -/
def makeTopicURL (topic userID : String) : Except String String :=
  if topic = "streams" then
    .ok ("https://api.twitch.tv/helix/streams?user_id=" ++ queryEscape userID)
  else if topic = "follows" then
    .ok ("https://api.twitch.tv/helix/users/follows?first=1&to_id=" ++ queryEscape userID)
  else .error "invalid topic"

/-- makeCallbackURL (webhooks.go lines 37-43): the callback URL carries
topic and user_id as query parameters (sorted key order: topic before
user_id).  The source never returns an error here. -/
def makeCallbackURL (callbackURL topic userID : String) : String :=
  callbackURL ++ "?topic=" ++ queryEscape topic ++ "&user_id=" ++ queryEscape userID

/-! ## Event payloads (the structs decoded from the data envelope) -/

/-- Stream payload struct. -/
structure Stream where
  id : String
  userID : String
  gameID : String
  communityIDs : List String
  type : String
  title : String
  viewerCount : Int
  startedAt : String
  language : String
  thumbnailURL : String
deriving DecidableEq

/-- Follow payload struct. -/
structure Follow where
  fromID : String
  toID : String
  followedAt : String
deriving DecidableEq

/-! ## Bounded channels

Go channels of capacity five (webhooks.go lines 291-292) written to
only through select with a default branch (lines 125-128, 135-138,
161-164): the send appends to the buffer when it has room and
otherwise does nothing, and in either case it returns immediately.
Elements are Option values because the Go channels carry pointers and
the handler sends nil on the streams channel as the offline signal. -/

structure BChan (α : Type) where
  cap : Nat
  buf : List α
deriving DecidableEq

/-- A send guarded by select with a default branch: append if the buffer
is below capacity, otherwise drop the value and leave the buffer
unchanged.  The function is total: no send ever blocks. -/
def trySend {α : Type} (c : BChan α) (a : α) : BChan α :=
  if c.buf.length < c.cap then { c with buf := c.buf ++ [a] } else c

/-! ## StreamWatcher and the registry (webhooks.go lines 178-323) -/

/-- StreamWatcher (webhooks.go lines 178-190): the subscription key
fields, the two delivery channels, and the lease in nanoseconds.
Context and client back-references are represented by the explicit
state passing below. -/
structure StreamWatcher where
  topic : String
  userID : String
  streams : BChan (Option Stream)
  follows : BChan (Option Follow)
  leaseNs : Nat
deriving DecidableEq

/-- topicKey (webhooks.go lines 192-194). -/
def StreamWatcher.topicKey (sw : StreamWatcher) : String :=
  makeTopicKey sw.topic sw.userID

/-- The watcher built by addStreamWatcher (webhooks.go lines 286-298):
empty channels of capacity five and a lease of ten minutes, that is
600000000000 nanoseconds. -/
def newStreamWatcher (topic userID : String) : StreamWatcher :=
  ⟨topic, userID, ⟨5, []⟩, ⟨5, []⟩, 600000000000⟩

/-- The registry map streamWatchers, modelled as an association list
whose keys are unique (Go map semantics; uniqueness is proved as an
invariant below). -/
abbrev Registry := List (String × StreamWatcher)

/-- Reading the map: the watcher stored under a key, if any. -/
def lookupWatcher (reg : Registry) (key : String) : Option StreamWatcher :=
  match reg with
  | [] => none
  | (k, sw) :: rest => if k = key then some sw else lookupWatcher rest key

/-- removeStreamWatcher (webhooks.go lines 314-323): delete the key from
the map; an absent key is not an error. -/
def removeStreamWatcher (reg : Registry) (key : String) : Registry :=
  match reg with
  | [] => []
  | (k, sw) :: rest =>
      if k = key then removeStreamWatcher rest key
      else (k, sw) :: removeStreamWatcher rest key

/-- Replacing the watcher stored under a key.  The Go map stores a
pointer and the handler mutates the pointed-to channels in place; the
embedding makes the same update visible by rewriting the entry. -/
def updateWatcher (reg : Registry) (key : String) (sw : StreamWatcher) : Registry :=
  reg.map (fun p => if p.1 = key then (key, sw) else p)

/-! ## The webhook handler (webhooks.go lines 53-176) -/

/-- The observable request body, abstracting the raw bytes by the stages
the handler can reach on them: reading the body can fail (line 99),
decoding the data envelope can fail (line 106), and otherwise the raw
data field admits a decode attempt as a stream list and as a follow
list (lines 116 and 145), each of which can fail on its own. -/
inductive WebhookBody where
  | readError
  | envelopeError
  | payload (streamsDecode : Except String (List (Option Stream)))
            (followsDecode : Except String (List (Option Follow)))

/-- An inbound webhook request: the decoded URL query parameters and the
body. -/
structure WebhookRequest where
  query : List (String × String)
  body : WebhookBody

/-- url.Values.Get: the first value recorded for a key, or the empty
string. -/
def getQ (q : List (String × String)) (key : String) : String :=
  match q with
  | [] => ""
  | (k, v) :: rest => if k = key then v else getQ rest key

/-- What one handler invocation produces: the HTTP status written (a
plain Write with no WriteHeader is an implicit 200), the response body
written, and the registry (with its watcher channels) afterwards. -/
structure HandlerOutput where
  status : Nat
  respBody : String
  registry : Registry
deriving DecidableEq

/-- The default branch of the handler switch (webhooks.go lines 78-174):
the event delivery path.  Every exit writes status 200.  Channel sends
go through trySend, the model of select with a default branch. -/
def deliverEvent (reg : Registry) (r : WebhookRequest) : HandlerOutput :=
  let topic := getQ r.query "topic"
  let userID := getQ r.query "user_id"
  if topic = "" ∨ userID = "" then ⟨200, "", reg⟩
  else
    match lookupWatcher reg (makeTopicKey topic userID) with
    | none => ⟨200, "", reg⟩
    | some sw =>
      match r.body with
      | .readError => ⟨200, "", reg⟩
      | .envelopeError => ⟨200, "", reg⟩
      | .payload sdec fdec =>
        if topic = "streams" then
          match sdec with
          | .error _ => ⟨200, "", reg⟩
          | .ok streams =>
            if streams.length = 0 then
              ⟨200, "", updateWatcher reg (makeTopicKey topic userID)
                { sw with streams := trySend sw.streams none }⟩
            else
              ⟨200, "", updateWatcher reg (makeTopicKey topic userID)
                { sw with streams := streams.foldl trySend sw.streams }⟩
        else if topic = "follows" then
          match fdec with
          | .error _ => ⟨200, "", reg⟩
          | .ok follows =>
            if follows.length = 0 then ⟨200, "", reg⟩
            else
              ⟨200, "", updateWatcher reg (makeTopicKey topic userID)
                { sw with follows := follows.foldl trySend sw.follows }⟩
        else ⟨200, "", reg⟩

/-- WebhookHandler (webhooks.go lines 53-176): switch on the hub.mode
query parameter.  subscribe and unsubscribe echo the hub.challenge
parameter (lines 63-70); denied calls removeStreamWatcher with the raw
hub.topic parameter and writes 200 (lines 71-77); everything else is
the delivery path. -/
def webhookHandler (reg : Registry) (r : WebhookRequest) : HandlerOutput :=
  if getQ r.query "hub.mode" = "subscribe" then
    ⟨200, getQ r.query "hub.challenge", reg⟩
  else if getQ r.query "hub.mode" = "unsubscribe" then
    ⟨200, getQ r.query "hub.challenge", reg⟩
  else if getQ r.query "hub.mode" = "denied" then
    ⟨200, "", removeStreamWatcher reg (getQ r.query "hub.topic")⟩
  else
    deliverEvent reg r

/-! ## The subscribe call (webhooks.go lines 45-51 and 221-251) -/

/-- WebhookSubscription (webhooks.go lines 45-51): the JSON body posted
to webhooks/hub. -/
structure WebhookSubscription where
  mode : String
  topic : String
  callback : String
  lease : String
  secret : String
deriving DecidableEq

/-- The request body sub builds (webhooks.go lines 223-239) from the
watcher fields, the configured callback URL and the callback secret.
The lease is strconv.Itoa of int(sw.lease.Seconds()); Seconds divides
the nanosecond count by ten to the ninth in float64 arithmetic, which
is exact for the whole-second leases this library uses, so it is
modelled by Nat division. -/
def subRequest (callbackURL callbackSecret : String) (sw : StreamWatcher) :
    Except String WebhookSubscription :=
  match makeTopicURL sw.topic sw.userID with
  | .error e => .error e
  | .ok topicURL =>
      .ok ⟨"subscribe", topicURL, makeCallbackURL callbackURL sw.topic sw.userID,
           toString (sw.leaseNs / 1000000000), callbackSecret⟩

/-- sub (webhooks.go lines 221-251): build the request, post it through
the transport (modelled by an oracle from the request body to either a
transport error or a status code), and require status 202. -/
def sub (callbackURL callbackSecret : String) (sw : StreamWatcher)
    (transport : WebhookSubscription → Except String Nat) : Except String Unit :=
  match subRequest callbackURL callbackSecret sw with
  | .error e => .error e
  | .ok s =>
      match transport s with
      | .error _ => .error "error making request"
      | .ok status =>
          if status = 202 then .ok ()
          else .error ("unexpected status code: " ++ toString status)

/-! ## addStreamWatcher (webhooks.go lines 274-312)

The registry mutex is taken on line 275 and held through the key
check, the insert and the sub call.  On the already-subscribed path it
is released on line 281, on the subscribe-failure path on line 303
(after which removeStreamWatcher takes it again on line 315), and on
the success path on line 310.  The function is therefore one critical
section followed, only on the failure path, by a second one; addCS1 is
the first critical section and addStreamWatcher the whole call. -/

/-- How the first critical section of addStreamWatcher ends. -/
inductive AddOutcome where
  | already
  | subFailed (e : String) (key : String)
  | subscribed (sw : StreamWatcher)
deriving DecidableEq

/-- The first critical section of addStreamWatcher (mutex acquired on
webhooks.go line 275, released on line 281, 303 or 310): check the
key, insert the new watcher, and run the subscribe call while still
holding the lock. -/
def addCS1 (reg : Registry) (topic userID cb secret : String)
    (transport : WebhookSubscription → Except String Nat) : Registry × AddOutcome :=
  match lookupWatcher reg (makeTopicKey topic userID) with
  | some _ => (reg, .already)
  | none =>
    let sw := newStreamWatcher topic userID
    let reg1 := reg ++ [(makeTopicKey topic userID, sw)]
    match sub cb secret sw transport with
    | .error e => (reg1, .subFailed e (makeTopicKey topic userID))
    | .ok _ => (reg1, .subscribed sw)

/-- addStreamWatcher (webhooks.go lines 274-312) run to completion: on
an existing key the error already subscribed to topic; on a subscribe
failure the second critical section (removeStreamWatcher, line 304)
deletes the just-inserted entry and the error is propagated; on
success the watcher is returned. -/
def addStreamWatcher (reg : Registry) (topic userID cb secret : String)
    (transport : WebhookSubscription → Except String Nat) :
    Registry × Except String StreamWatcher :=
  match addCS1 reg topic userID cb secret transport with
  | (r, .already) => (r, .error "already subscribed to topic")
  | (r, .subFailed e key) => (removeStreamWatcher r key, .error e)
  | (r, .subscribed sw) => (r, .ok sw)

/-! ## The renewal loop (webhooks.go lines 196-219) -/

/-- Round a / b to the nearest integer, ties to even, for b positive:
the rounding IEEE-754 binary arithmetic applies to an exact quotient. -/
def rne (a b : Nat) : Nat :=
  let q := a / b
  let r := a % b
  if 2 * r < b then q
  else if b < 2 * r then q + 1
  else if q % 2 = 0 then q else q + 1

/-- The numerator of the float64 literal .9 over 2 ^ 53: the double
nearest to nine tenths. -/
def float64Point9Num : Nat := 8106479329266893

/-- Floor of the base-two logarithm by repeated halving, with explicit
fuel; 64 units of fuel cover every value an int64 can hold, which is
the range of Go durations. -/
def log2f : Nat → Nat → Nat
  | 0, _ => 0
  | f + 1, n => if 2 ≤ n then log2f f (n / 2) + 1 else 0

/-- The ticker period of resub (webhooks.go line 200), which is
time.Duration(float64(sw.lease) * .9): the lease count of nanoseconds
is converted to float64 (exact below 2 ^ 53), multiplied by the double
nearest .9 (exact product n / 2 ^ 53 here), the product is rounded to
the nearest double (53-bit significand at its binade e, ties to even),
and the result is truncated toward zero back to an integer count of
nanoseconds. -/
def resubPeriodNs (leaseNs : Nat) : Nat :=
  let n := leaseNs * float64Point9Num
  let e := log2f 64 (n / 2 ^ 53)
  let m := rne n (2 ^ (e + 1))
  m * 2 ^ e / 2 ^ 52

/-- The renewal loop resub (webhooks.go lines 196-219), unrolled over a
list of tick outcomes (one transport oracle per ticker firing).  Each
tick re-issues sub with the unchanged watcher fields; a failure is
only logged (lines 208-210) and the loop continues; the loop only ever
exits through context cancellation, so after any finite list of ticks
it is still running (the Bool in the result).  The requests issued are
collected for inspection. -/
def resubLoop (callbackURL callbackSecret : String) (sw : StreamWatcher) :
    List (WebhookSubscription → Except String Nat) →
      List (Except String WebhookSubscription) × Bool
  | [] => ([], true)
  | transport :: rest =>
      let _outcome := sub callbackURL callbackSecret sw transport
      let tail := resubLoop callbackURL callbackSecret sw rest
      (subRequest callbackURL callbackSecret sw :: tail.1, tail.2)

/-! ## Helper lemmas about the registry and the renewal loop -/

theorem lookupWatcher_none_not_mem (reg : Registry) (key : String)
    (h : lookupWatcher reg key = none) : key ∉ reg.map Prod.fst := by
  induction reg with
  | nil => simp
  | cons p rest ih =>
    obtain ⟨k, w⟩ := p
    simp only [lookupWatcher] at h
    by_cases hk : k = key
    · rw [if_pos hk] at h
      exact absurd h (by simp)
    · rw [if_neg hk] at h
      simp only [List.map_cons, List.mem_cons]
      rintro (rfl | hmem)
      · exact hk rfl
      · exact ih h hmem

theorem removeStreamWatcher_append_self (reg : Registry) (key : String) (sw : StreamWatcher)
    (h : lookupWatcher reg key = none) :
    removeStreamWatcher (reg ++ [(key, sw)]) key = reg := by
  induction reg with
  | nil => simp [removeStreamWatcher]
  | cons p rest ih =>
    obtain ⟨k, w⟩ := p
    simp only [lookupWatcher] at h
    by_cases hk : k = key
    · rw [if_pos hk] at h
      exact absurd h (by simp)
    · rw [if_neg hk] at h
      simp only [List.cons_append, removeStreamWatcher, if_neg hk]
      exact congrArg (fun l => (k, w) :: l) (ih h)

theorem lookupWatcher_append_self (reg : Registry) (key : String) (sw : StreamWatcher)
    (h : lookupWatcher reg key = none) :
    lookupWatcher (reg ++ [(key, sw)]) key = some sw := by
  induction reg with
  | nil => simp [lookupWatcher]
  | cons p rest ih =>
    obtain ⟨k, w⟩ := p
    simp only [lookupWatcher] at h
    by_cases hk : k = key
    · rw [if_pos hk] at h
      exact absurd h (by simp)
    · rw [if_neg hk] at h
      simp only [List.cons_append, lookupWatcher, if_neg hk]
      exact ih h

theorem deliverEvent_status (reg : Registry) (r : WebhookRequest) :
    (deliverEvent reg r).status = 200 := by
  unfold deliverEvent
  dsimp only
  repeat' split
  all_goals rfl

theorem resubLoop_spec (cb sec : String) (sw : StreamWatcher) :
    ∀ trs : List (WebhookSubscription → Except String Nat),
      resubLoop cb sec sw trs = (trs.map (fun _ => subRequest cb sec sw), true)
  | [] => rfl
  | tr :: rest => by
      simp only [resubLoop, List.map_cons]
      rw [resubLoop_spec cb sec sw rest]

/-! ## Claim theorems -/

/-- C1: contrary to the claim that a cached token is reused exactly when
its expiry is strictly in the future and that the attached bearer token
never has an expiry at or before the current time, the comparison on
client.go line 148 is inverted: with both credentials configured, a
cached token whose expiry 5 lies strictly before the call time 10 is
reused and attached as the bearer header, while a cached token whose
expiry 15 lies strictly after the call time 10 is not reused (a fresh
token is fetched instead). -/
theorem authenticateInvertedExpiryCheck :
    (authenticate "id" "secret" (some ⟨"staletok", "", 0, "", 5⟩) 10
        (.ok (200, [("access_token", .str "fresh")]))
      = .ok (.bearer "staletok", some ⟨"staletok", "", 0, "", 5⟩))
    ∧ ((5 : Int) < 10)
    ∧ (authenticate "id" "secret" (some ⟨"validtok", "", 0, "", 15⟩) 10
        (.ok (200, [("access_token", .str "fresh")]))
      = .ok (.bearer "fresh", some ⟨"fresh", "", 0, "", 10⟩))
    ∧ ((10 : Int) < 15) :=
  ⟨rfl, by decide, rfl, by decide⟩

/-- C2: contrary to the claim that after a cache miss the decoded
expires_in field k makes the cached expiry equal now plus k, the
ExpiresIn field of the Go struct is declared with the json key
refresh_token (client.go line 29), duplicating the RefreshToken field;
encoding/json therefore ignores both keys, ExpiresIn stays 0, and for
a response carrying expires_in 3600 at time 100 the cached token has
expiry 100 (equal to now), not 3700; the refresh_token value is
dropped as well. -/
theorem tokenExpiresInNeverDecoded :
    (authenticate "id" "secret" none 100
        (.ok (200, [("access_token", .str "abc"), ("refresh_token", .str "r"),
                    ("expires_in", .num 3600), ("scope", .str "chat")]))
      = .ok (.bearer "abc", some ⟨"abc", "", 0, "chat", 100⟩))
    ∧ (100 : Int) ≠ 100 + 3600 :=
  ⟨rfl, by decide⟩

/-- C3: contrary to the claim that a denied notification removes the
Watcher the hub.topic parameter identifies, the handler passes the raw
hub.topic value to removeStreamWatcher (webhooks.go line 74) while the
registry is keyed by topic slash userID: with the watcher for streams
and user 42 registered and a denied request whose hub.topic is
exactly the topic URL this library subscribes with for that watcher,
the handler responds 200 but leaves the registry unchanged and the
watcher still present. -/
theorem deniedDoesNotRemoveMatchingWatcher :
    (webhookHandler [(makeTopicKey "streams" "42", newStreamWatcher "streams" "42")]
        ⟨[("hub.mode", "denied"),
          ("hub.topic", "https://api.twitch.tv/helix/streams?user_id=42")], .readError⟩
      = ⟨200, "", [(makeTopicKey "streams" "42", newStreamWatcher "streams" "42")]⟩)
    ∧ makeTopicURL "streams" "42" = .ok "https://api.twitch.tv/helix/streams?user_id=42"
    ∧ lookupWatcher [(makeTopicKey "streams" "42", newStreamWatcher "streams" "42")]
        (makeTopicKey "streams" "42") = some (newStreamWatcher "streams" "42") :=
  ⟨rfl, rfl, rfl⟩

/-- C4 counterexample: the claim that no Lookup can observe a Watcher
before its subscribe call has succeeded fails on the code.  The first
critical section of an Add whose subscribe call gets status 500 ends
(the mutex is released on webhooks.go line 303) with the watcher still
in the registry; a Lookup running at that point - a complete critical
section of its own, so the interleaving respects the mutex - observes
the watcher even though its subscribe call never succeeded.  Only the
second critical section (removeStreamWatcher) deletes it, after which
the completed Add has indeed left the registry unchanged and returned
the error. -/
theorem lookupSeesWatcherAfterFailedSub :
    ((addCS1 [] "streams" "42" "http://cb" "sec" (fun _ => .ok 500)).2
        = .subFailed "unexpected status code: 500" (makeTopicKey "streams" "42"))
    ∧ (lookupWatcher (addCS1 [] "streams" "42" "http://cb" "sec" (fun _ => .ok 500)).1
        (makeTopicKey "streams" "42") = some (newStreamWatcher "streams" "42"))
    ∧ (addStreamWatcher [] "streams" "42" "http://cb" "sec" (fun _ => .ok 500)
        = ([], .error "unexpected status code: 500")) :=
  ⟨rfl, rfl, rfl⟩

/-- C4 (amended): if the initial subscribe request issued during Add
fails, Add removes the just-inserted entry and returns no Watcher
together with the error, leaving the registry unchanged once Add has
returned; and because the registry mutex is held across the insert and
the subscribe call, no Lookup observes the Watcher before the
subscribe call has completed - but between a failed subscribe and the
removal the mutex is released, and a Lookup running in that window
observes the Watcher. -/
theorem addSubscribeFailureRollback (reg : Registry) (t u cb sec e : String)
    (tr : WebhookSubscription → Except String Nat)
    (hmiss : lookupWatcher reg (makeTopicKey t u) = none)
    (hfail : sub cb sec (newStreamWatcher t u) tr = .error e) :
    addStreamWatcher reg t u cb sec tr = (reg, .error e)
    ∧ lookupWatcher (addCS1 reg t u cb sec tr).1 (makeTopicKey t u)
        = some (newStreamWatcher t u) := by
  have hcs : addCS1 reg t u cb sec tr
      = (reg ++ [(makeTopicKey t u, newStreamWatcher t u)],
         .subFailed e (makeTopicKey t u)) := by
    unfold addCS1
    rw [hmiss]
    dsimp only
    rw [hfail]
  constructor
  · unfold addStreamWatcher
    rw [hcs]
    dsimp only
    rw [removeStreamWatcher_append_self reg _ _ hmiss]
  · rw [hcs]
    exact lookupWatcher_append_self reg _ _ hmiss

/-- Witness for C4 (amended): a concrete failed Add (transport error on
the subscribe call) rolls the empty registry back and returns the
error, while the state after its first critical section still shows
the watcher. -/
theorem addSubscribeFailureRollback_w :
    addStreamWatcher [] "follows" "9" "http://cb" "s" (fun _ => .error "net")
        = ([], .error "error making request")
    ∧ lookupWatcher (addCS1 [] "follows" "9" "http://cb" "s" (fun _ => .error "net")).1
        (makeTopicKey "follows" "9") = some (newStreamWatcher "follows" "9") :=
  addSubscribeFailureRollback [] "follows" "9" "http://cb" "s" "error making request"
    (fun _ => .error "net") rfl rfl

/-- C5: a second Add for a key that is already live returns the error
already subscribed to topic and leaves the registry unchanged, and Add
preserves the at-most-one-watcher-per-key invariant (distinct keys) of
the registry map. -/
theorem addEnforcesUniqueKey (reg : Registry) (t u cb sec : String)
    (tr : WebhookSubscription → Except String Nat)
    (hnd : (reg.map Prod.fst).Nodup) :
    ((lookupWatcher reg (makeTopicKey t u)).isSome →
        addStreamWatcher reg t u cb sec tr = (reg, .error "already subscribed to topic"))
    ∧ ((addStreamWatcher reg t u cb sec tr).1.map Prod.fst).Nodup := by
  constructor
  · intro hsome
    obtain ⟨w, hw⟩ := Option.isSome_iff_exists.mp hsome
    unfold addStreamWatcher addCS1
    rw [hw]
  · cases hlook : lookupWatcher reg (makeTopicKey t u) with
    | some w =>
      unfold addStreamWatcher addCS1
      rw [hlook]
      exact hnd
    | none =>
      cases hsub : sub cb sec (newStreamWatcher t u) tr with
      | error e =>
        unfold addStreamWatcher addCS1
        rw [hlook]
        dsimp only
        rw [hsub]
        dsimp only
        rw [removeStreamWatcher_append_self reg _ _ hlook]
        exact hnd
      | ok v =>
        unfold addStreamWatcher addCS1
        rw [hlook]
        dsimp only
        rw [hsub]
        dsimp only
        rw [List.map_append]
        simp only [List.map_cons, List.map_nil]
        rw [List.nodup_append]
        refine ⟨hnd, List.nodup_singleton _, ?_⟩
        intro a ha hb
        simp only [List.mem_singleton] at hb
        subst hb
        exact lookupWatcher_none_not_mem reg _ hlook ha

/-- Witness for C5: with the watcher for streams and user 77 live, a
second Add with the same key returns the already-subscribed error and
the registry is unchanged. -/
theorem addEnforcesUniqueKey_w :
    addStreamWatcher [(makeTopicKey "streams" "77", newStreamWatcher "streams" "77")]
        "streams" "77" "cb" "s" (fun _ => .ok 202)
      = ([(makeTopicKey "streams" "77", newStreamWatcher "streams" "77")],
         .error "already subscribed to topic") :=
  (addEnforcesUniqueKey [(makeTopicKey "streams" "77", newStreamWatcher "streams" "77")]
      "streams" "77" "cb" "s" (fun _ => .ok 202) (by decide)).1 (by decide)

/-- C6: every inbound request taken by the delivery path of the handler
(hub.mode neither subscribe nor unsubscribe nor denied) is answered
with HTTP status 200, whatever the query parameters, the registry and
the body - missing topic or user_id, no matching watcher, unreadable
body, undecodable envelope or payload, and unknown topic included. -/
theorem deliveryPathAlwaysRespondsOk (reg : Registry) (r : WebhookRequest)
    (h1 : getQ r.query "hub.mode" ≠ "subscribe")
    (h2 : getQ r.query "hub.mode" ≠ "unsubscribe")
    (h3 : getQ r.query "hub.mode" ≠ "denied") :
    (webhookHandler reg r).status = 200 := by
  unfold webhookHandler
  rw [if_neg h1, if_neg h2, if_neg h3]
  exact deliverEvent_status reg r

/-- Witness for C6: a delivery request with no hub.mode, no topic and an
unreadable body against the empty registry is answered 200. -/
theorem deliveryPathAlwaysRespondsOk_w :
    (webhookHandler [] ⟨[("user_id", "3")], .readError⟩).status = 200 :=
  deliveryPathAlwaysRespondsOk [] ⟨[("user_id", "3")], .readError⟩
    (by decide) (by decide) (by decide)

/-- C7: the two delivery channels of every watcher the registry creates
are bounded buffers of capacity 5, and the send used on the webhook
path is the total function trySend, which never blocks: when the
buffer is full the value is dropped and the buffer is unchanged, and
when there is room the value is appended. -/
theorem boundedNonBlockingDelivery (t u : String) (α : Type) (ch : BChan α) (x : α) :
    (newStreamWatcher t u).streams.cap = 5
    ∧ (newStreamWatcher t u).follows.cap = 5
    ∧ (ch.cap ≤ ch.buf.length → trySend ch x = ch)
    ∧ (ch.buf.length < ch.cap → (trySend ch x).buf = ch.buf ++ [x]) := by
  refine ⟨rfl, rfl, ?_, ?_⟩
  · intro h
    unfold trySend
    rw [if_neg (Nat.not_lt.mpr h)]
  · intro h
    unfold trySend
    rw [if_pos h]

/-- Witness for C7: a full buffer of five elements drops a sixth send
unchanged, and a fresh watcher has capacity 5. -/
theorem boundedNonBlockingDelivery_w :
    (newStreamWatcher "streams" "11").streams.cap = 5
    ∧ trySend (⟨5, [1, 2, 3, 4, 5]⟩ : BChan Nat) 9 = ⟨5, [1, 2, 3, 4, 5]⟩ :=
  ⟨(boundedNonBlockingDelivery "streams" "11" Nat ⟨5, [1, 2, 3, 4, 5]⟩ 9).1,
   (boundedNonBlockingDelivery "streams" "11" Nat ⟨5, [1, 2, 3, 4, 5]⟩ 9).2.2.1 (by decide)⟩

/-- C8: every watcher the registry creates has the ten-minute lease, its
renewal ticker period is exactly ninety percent of that lease (the
float64 arithmetic of webhooks.go line 200 lands on 540 seconds for
the 600 second lease, exactly), every tick of the renewal loop issues
the same subscribe request as the initial subscribe (same topic URL,
callback URL, lease seconds and secret, all computed from the
unchanged watcher fields), and after any finite sequence of tick
outcomes - failures included - the loop is still running on the same
schedule and the watcher has not been torn down. -/
theorem renewalScheduleAndRequests (t u cb sec : String)
    (trs : List (WebhookSubscription → Except String Nat)) :
    (newStreamWatcher t u).leaseNs = 600000000000
    ∧ resubPeriodNs (newStreamWatcher t u).leaseNs * 10 = (newStreamWatcher t u).leaseNs * 9
    ∧ resubPeriodNs (newStreamWatcher t u).leaseNs = 540000000000
    ∧ (resubLoop cb sec (newStreamWatcher t u) trs).2 = true
    ∧ ∀ q ∈ (resubLoop cb sec (newStreamWatcher t u) trs).1,
        q = subRequest cb sec (newStreamWatcher t u) := by
  refine ⟨rfl, (by decide : resubPeriodNs 600000000000 * 10 = 600000000000 * 9),
    (by decide : resubPeriodNs 600000000000 = 540000000000), ?_, ?_⟩
  · rw [resubLoop_spec]
  · rw [resubLoop_spec]
    intro q hq
    simp only [List.mem_map] at hq
    obtain ⟨_, _, rfl⟩ := hq
    rfl

/-- Witness for C8: for the watcher of streams and user 5 the renewal
period is 540 seconds in nanoseconds, and after a failing tick the
loop is still running. -/
theorem renewalScheduleAndRequests_w :
    resubPeriodNs (newStreamWatcher "streams" "5").leaseNs = 540000000000
    ∧ (resubLoop "cb" "s" (newStreamWatcher "streams" "5") [fun _ => .error "boom"]).2 = true :=
  ⟨(renewalScheduleAndRequests "streams" "5" "cb" "s" [fun _ => .error "boom"]).2.2.1,
   (renewalScheduleAndRequests "streams" "5" "cb" "s" [fun _ => .error "boom"]).2.2.2.1⟩

/-- C9: a streams delivery whose data array decodes to zero entries
makes the handler send exactly one nil value into the streams channel
of the matching watcher through trySend - appended when the buffer has
room, dropped when it is full - leaving the follows channel untouched,
and respond 200; when the buffer has room the channel visibly grows by
the one nil element, distinct from a delivery that sends nothing. -/
theorem emptyStreamsDeliverySendsOffline (reg : Registry) (sw : StreamWatcher) (u : String)
    (fdec : Except String (List (Option Follow)))
    (hu : u ≠ "")
    (h : lookupWatcher reg (makeTopicKey "streams" u) = some sw) :
    webhookHandler reg ⟨[("topic", "streams"), ("user_id", u)], .payload (.ok []) fdec⟩
        = ⟨200, "", updateWatcher reg (makeTopicKey "streams" u)
            { sw with streams := trySend sw.streams none }⟩
    ∧ (sw.streams.buf.length < sw.streams.cap →
         (trySend sw.streams none).buf = sw.streams.buf ++ [none])
    ∧ (sw.streams.cap ≤ sw.streams.buf.length → trySend sw.streams none = sw.streams) := by
  refine ⟨?_, ?_, ?_⟩
  · show deliverEvent reg ⟨[("topic", "streams"), ("user_id", u)], .payload (.ok []) fdec⟩ = _
    unfold deliverEvent
    dsimp only
    have hne : ¬(getQ [("topic", "streams"), ("user_id", u)] "topic" = ""
        ∨ getQ [("topic", "streams"), ("user_id", u)] "user_id" = "") := by
      rintro (habs | habs)
      · exact absurd (show ("streams" : String) = "" from habs) (by decide)
      · exact hu habs
    rw [if_neg hne]
    have hkey : makeTopicKey (getQ [("topic", "streams"), ("user_id", u)] "topic")
        (getQ [("topic", "streams"), ("user_id", u)] "user_id") = makeTopicKey "streams" u := rfl
    rw [hkey, h]
    rfl
  · intro hlt
    unfold trySend
    rw [if_pos hlt]
  · intro hge
    unfold trySend
    rw [if_neg (Nat.not_lt.mpr hge)]

/-- Witness for C9: with the watcher for streams and user 7 live and its
buffer empty, an empty streams delivery is answered 200 and exactly
one nil appears in the streams buffer. -/
theorem emptyStreamsDeliverySendsOffline_w :
    webhookHandler [(makeTopicKey "streams" "7", newStreamWatcher "streams" "7")]
        ⟨[("topic", "streams"), ("user_id", "7")], .payload (.ok []) (.error "x")⟩
        = ⟨200, "", updateWatcher [(makeTopicKey "streams" "7", newStreamWatcher "streams" "7")]
            (makeTopicKey "streams" "7")
            { newStreamWatcher "streams" "7" with
                streams := trySend (newStreamWatcher "streams" "7").streams none }⟩
    ∧ (trySend (newStreamWatcher "streams" "7").streams none).buf
        = (newStreamWatcher "streams" "7").streams.buf ++ [none] :=
  ⟨(emptyStreamsDeliverySendsOffline
      [(makeTopicKey "streams" "7", newStreamWatcher "streams" "7")]
      (newStreamWatcher "streams" "7") "7" (.error "x") (by decide) rfl).1,
   (emptyStreamsDeliverySendsOffline
      [(makeTopicKey "streams" "7", newStreamWatcher "streams" "7")]
      (newStreamWatcher "streams" "7") "7" (.error "x") (by decide) rfl).2.1 (by decide)⟩

/-- C10: a follows delivery whose data array decodes to zero entries
delivers nothing - the handler responds 200 and returns the registry
unchanged, so both channels of the matching watcher (and of every
other watcher) are exactly as before; unlike the streams topic there
is no explicit empty-result signal. -/
theorem emptyFollowsDeliveryIsNoop (reg : Registry) (sw : StreamWatcher) (u : String)
    (sdec : Except String (List (Option Stream)))
    (hu : u ≠ "")
    (h : lookupWatcher reg (makeTopicKey "follows" u) = some sw) :
    webhookHandler reg ⟨[("topic", "follows"), ("user_id", u)], .payload sdec (.ok [])⟩
      = ⟨200, "", reg⟩ := by
  show deliverEvent reg ⟨[("topic", "follows"), ("user_id", u)], .payload sdec (.ok [])⟩ = _
  unfold deliverEvent
  dsimp only
  have hne : ¬(getQ [("topic", "follows"), ("user_id", u)] "topic" = ""
      ∨ getQ [("topic", "follows"), ("user_id", u)] "user_id" = "") := by
    rintro (habs | habs)
    · exact absurd (show ("follows" : String) = "" from habs) (by decide)
    · exact hu habs
  rw [if_neg hne]
  have hkey : makeTopicKey (getQ [("topic", "follows"), ("user_id", u)] "topic")
      (getQ [("topic", "follows"), ("user_id", u)] "user_id") = makeTopicKey "follows" u := rfl
  rw [hkey, h]
  cases sdec with
  | error e => rfl
  | ok l => rfl

/-- Witness for C10: with the watcher for follows and user 8 live and a
nonempty streams view of the same body, an empty follows delivery is
answered 200 with the registry unchanged. -/
theorem emptyFollowsDeliveryIsNoop_w :
    webhookHandler [(makeTopicKey "follows" "8", newStreamWatcher "follows" "8")]
        ⟨[("topic", "follows"), ("user_id", "8")], .payload (.error "y") (.ok [])⟩
      = ⟨200, "", [(makeTopicKey "follows" "8", newStreamWatcher "follows" "8")]⟩ :=
  emptyFollowsDeliveryIsNoop
    [(makeTopicKey "follows" "8", newStreamWatcher "follows" "8")]
    (newStreamWatcher "follows" "8") "8" (.error "y") (by decide) rfl

end Libtwitch
